import Mathlib

set_option linter.unusedVariables false

/-!
Verification of the Mio-Gallery image service (src/api/main.py): a shallow
embedding of its metadata document, access-control gate, listing filter,
deletion, unlock, album update, derivative encoding loops and identity
derivation, together with theorems settling the frozen claims about them.
-/

/-- First-match association-list lookup, modelling Python dict access
    (dict keys are unique, so first match is the match). -/
def lookupStr {α : Type} (xs : List (String × α)) (k : String) : Option α :=
  match xs with
  | [] => none
  | (k1, v) :: rest => if k1 = k then some v else lookupStr rest k

/-- Remove a key from an association list, modelling dict.pop(key, None). -/
def eraseKey {α : Type} (xs : List (String × α)) (k : String) : List (String × α) :=
  xs.filter (fun kv => !(kv.1 == k))

/-- Set a key in an association list, modelling dict assignment. -/
def setKey {α : Type} (xs : List (String × α)) (k : String) (v : α) : List (String × α) :=
  (k, v) :: eraseKey xs k

/-- Add every element of xs to the set s, modelling Python set insertion. -/
def insertAll (s : List String) (xs : List String) : List String :=
  xs.foldl (fun acc x => if x ∈ acc then acc else acc ++ [x]) s

/-- ASCII whitespace, for modelling Python str.strip(). -/
def isSpaceChar (c : Char) : Bool :=
  c == ' ' || c == '\t' || c == '\n' || c == '\r' || c == '\x0b' || c == '\x0c'

/-- Drop leading whitespace characters. -/
def dropLeadingSpaces (l : List Char) : List Char :=
  match l with
  | [] => []
  | c :: rest => if isSpaceChar c then dropLeadingSpaces rest else c :: rest

/-- Python str.strip() (restricted to ASCII whitespace, which is all the
    claims exercise). -/
def pyStrip (s : String) : String :=
  String.mk (dropLeadingSpaces (dropLeadingSpaces s.data.reverse).reverse)

/-- An album record of the metadata document: name, password_hash and
    created_at. An absent password hash is modelled as the empty string,
    which is exactly the falsy case the source skips. -/
structure Album where
  name : String
  passwordHash : String
  createdAt : String
deriving DecidableEq

/-- The single JSON metadata document (photo/.meta.json): pinned flags,
    display datetimes, album definitions and image-to-album assignments. -/
structure Meta where
  pinned : List (String × Bool)
  datetimeMap : List (String × String)
  albums : List (String × Album)
  imageAlbum : List (String × String)
deriving DecidableEq

/-- A caller: the session admin flag and the session-scoped set of unlocked
    album ids. -/
structure Caller where
  isAdmin : Bool
  unlocked : List String
deriving DecidableEq

/-- Server-side store: photo files as (stem, extension) pairs under
    photo/YYYY/MM, the thumbnail and download-JPEG caches keyed by image id,
    the description files, and the metadata document. The side-directory
    caches are modelled separately from the photo tree; the source deletes
    both, so the claims are insensitive to the separation. -/
structure StoreState where
  photoFiles : List (String × String)
  thumbFiles : List String
  downloadFiles : List String
  descriptions : List (String × String)
  meta : Meta
deriving DecidableEq

/-- _find_files_by_id: every stored photo file whose stem is the image id. -/
def findFilesById (st : StoreState) (id : String) : List (String × String) :=
  st.photoFiles.filter (fun f => f.1 == id)

/-- _get_image_album_id: the image_album entry for the id, with a falsy
    value resolved to none and an album id absent from the albums map
    normalized to none (album deleted, image treated as public). -/
def getImageAlbumId (meta : Meta) (id : String) : Option String :=
  match lookupStr meta.imageAlbum id with
  | none => none
  | some a =>
    if a = "" then none
    else if (lookupStr meta.albums a).isSome then some a else none

/-- _can_access_album: admins see everything, a missing assignment is
    public, otherwise the album must be in the session unlocked set. -/
def canAccessAlbum (caller : Caller) (albumId : Option String) : Bool :=
  if caller.isAdmin then true
  else
    match albumId with
    | none => true
    | some a => caller.unlocked.contains a

/-- _can_access_image: resolve the album assignment, then gate on it. -/
def canAccessImage (caller : Caller) (meta : Meta) (id : String) : Bool :=
  canAccessAlbum caller (getImageAlbumId meta id)

/-- The fields of _build_image_payload that the claims consult. URL strings
    and strftime date rendering are external formatting and not modelled. -/
structure ImagePayload where
  id : String
  pinned : Bool
  description : String
  albumId : Option String
deriving DecidableEq

/-- The response bodies the verified endpoints can produce. -/
inductive RespBody
  | imageNotFound
  | thumbNotAvailable
  | payloadBody (p : ImagePayload)
  | fileBytes (name : String)
deriving DecidableEq

/-- _build_image_payload: none exactly when no stored file has the requested
    stem, otherwise the joined metadata for the image. -/
def buildImagePayload (st : StoreState) (id : String) : Option ImagePayload :=
  if findFilesById st id = [] then none
  else
    some { id := id,
           pinned := (lookupStr st.meta.pinned id).getD false,
           description := (lookupStr st.descriptions id).getD "",
           albumId := getImageAlbumId st.meta id }

/-- GET /api/images/id (get_image): the access guard returns the same 404
    body as a missing image, then the payload is built. -/
def getImageEndpoint (st : StoreState) (caller : Caller) (id : String) : Nat × RespBody :=
  if canAccessImage caller st.meta id then
    match buildImagePayload st id with
    | none => (404, RespBody.imageNotFound)
    | some p => (200, RespBody.payloadBody p)
  else (404, RespBody.imageNotFound)

/-- GET /api/thumb/id.webp (serve_thumbnail): guard, file existence check,
    then lazy generation, which is the abstract parameter gen. -/
def serveThumbnailEndpoint (gen : StoreState → String → Option String)
    (st : StoreState) (caller : Caller) (id : String) : Nat × RespBody :=
  if canAccessImage caller st.meta id then
    if findFilesById st id = [] then (404, RespBody.imageNotFound)
    else
      match gen st id with
      | none => (404, RespBody.thumbNotAvailable)
      | some nm => (200, RespBody.fileBytes nm)
  else (404, RespBody.imageNotFound)

/-- DELETE /api/images/id (delete_image): admin only, 404 when no file has
    the stem; otherwise every matching photo file is unlinked, the id is
    popped from the pinned and image_album maps (the datetime map is left
    untouched by the source), and the description, thumbnail and
    download-JPEG caches are unlinked. -/
def deleteImage (st : StoreState) (caller : Caller) (id : String) : Nat × StoreState :=
  if !caller.isAdmin then (401, st)
  else if findFilesById st id = [] then (404, st)
  else
    (200,
      { photoFiles := st.photoFiles.filter (fun f => !(f.1 == id)),
        thumbFiles := st.thumbFiles.filter (fun t => !(t == id)),
        downloadFiles := st.downloadFiles.filter (fun t => !(t == id)),
        descriptions := eraseKey st.descriptions id,
        meta := { st.meta with
                  pinned := eraseKey st.meta.pinned id,
                  imageAlbum := eraseKey st.meta.imageAlbum id } })

/-- Per-image album resolution inside get_images (and admin_get_images): a
    falsy raw value becomes none, a truthy value is stripped, and a
    non-falsy stripped id missing from the albums map is normalized to
    none. A whitespace-only raw value strips to the empty string, which is
    falsy and therefore escapes the normalization, staying as some "". -/
def listResolveAlbum (meta : Meta) (id : String) : Option String :=
  match lookupStr meta.imageAlbum id with
  | none => none
  | some v =>
    if v = "" then none
    else
      let s := pyStrip v
      if s = "" then some s
      else if (lookupStr meta.albums s).isSome then some s else none

/-- The per-image keep test of get_images for a given album filter token;
    the empty token models an absent or blank album query parameter. -/
def listingKeep (caller : Caller) (meta : Meta) (albumFilter : String) (id : String) : Bool :=
  let r := listResolveAlbum meta id
  if albumFilter = "public" then r.isNone
  else if albumFilter ≠ "" ∧ albumFilter ≠ "all" ∧ albumFilter ≠ "public" then
    decide (r = some albumFilter)
  else
    match r with
    | none => true
    | some a => caller.unlocked.contains a

/-- GET /api/images (get_images), projected onto its album-filter contract:
    the date filters are absent (with both dates None every date branch of
    the source is a no-op), the directory scan is abstracted to the list of
    image stems found, and the admin flag is never consulted, mirroring the
    source comment that the endpoint behaves the same for admins and normal
    users. A specific album token not in the session unlocked set fails
    closed with 403 before any image is examined. -/
def getImagesFiltered (caller : Caller) (meta : Meta) (ids : List String)
    (albumFilter : String) : Except Nat (List String) :=
  if albumFilter ≠ "" ∧ albumFilter ≠ "all" ∧ albumFilter ≠ "public" ∧
      albumFilter ∉ caller.unlocked then
    Except.error 403
  else Except.ok (ids.filter (listingKeep caller meta albumFilter))

/-- Outcomes of POST /api/albums/unlock. -/
inductive UnlockOutcome
  | missingPassword
  | invalidPassword
  | okUnlocked (matchedIds : List String)
deriving DecidableEq

/-- POST /api/albums/unlock (unlock_album): strip the password and reject an
    empty one with 400; collect every album whose stored hash is non-empty
    and matches under checkHash (the external check_password_hash); 401 with
    the session untouched when nothing matches, otherwise add every matched
    id to the session unlocked set. -/
def unlockAlbum (checkHash : String → String → Bool) (albums : List (String × Album))
    (unlocked0 : List String) (password : String) : Nat × UnlockOutcome × List String :=
  let p := pyStrip password
  if p = "" then (400, UnlockOutcome.missingPassword, unlocked0)
  else
    let matched := (albums.filter
      (fun kv => kv.2.passwordHash != "" && checkHash kv.2.passwordHash p)).map (fun kv => kv.1)
    if matched = [] then (401, UnlockOutcome.invalidPassword, unlocked0)
    else (200, UnlockOutcome.okUnlocked matched, insertAll unlocked0 matched)

/-- Request body of PUT /api/admin/albums/album_id. -/
structure AlbumUpdateBody where
  name : Option String
  password : Option String
deriving DecidableEq

/-- The password part of admin_album_update: a present password is stripped
    and replaces the stored hash only when non-empty after stripping. -/
def applyPasswordUpdate (genHash : String → String) (a : Album) (pw : Option String) : Album :=
  match pw with
  | none => a
  | some p =>
    let q := pyStrip p
    if q = "" then a else { a with passwordHash := genHash q }

/-- PUT /api/admin/albums/album_id (admin_album_update, PUT branch): admin
    only; 404 for an unknown album; a present name is stripped and must be
    non-empty (400 otherwise) and replaces the stored name; then the
    password rule of applyPasswordUpdate; the updated record is written
    back under the same id. -/
def adminAlbumUpdatePut (genHash : String → String) (caller : Caller)
    (albums : List (String × Album)) (albumId : String) (body : AlbumUpdateBody) :
    Nat × List (String × Album) :=
  if !caller.isAdmin then (401, albums)
  else
    match lookupStr albums albumId with
    | none => (404, albums)
    | some a0 =>
      match body.name with
      | some n =>
        let s := pyStrip n
        if s = "" then (400, albums)
        else (200, setKey albums albumId (applyPasswordUpdate genHash { a0 with name := s } body.password))
      | none => (200, setKey albums albumId (applyPasswordUpdate genHash a0 body.password))

/-- 1MB derivative budget of convert_and_save_image. -/
def MAX_OUTPUT_SIZE : Nat := 1024 * 1024

/-- The quality-reduction while loop of convert_and_save_image: enc is the
    encoded byte size at a given quality; the loop writes the first
    encoding within budget, or the quality-50 encoding unconditionally once
    the floor is reached, stepping quality down by 5. Fuel is explicit (one
    unit per iteration); any fuel above 5 covers the WebP start quality 70
    and above 7 the AVIF start quality 80. -/
def convertQualityLoop (enc : Nat → Nat) : Nat → Nat → Option Nat
  | 0, _ => none
  | fuel + 1, quality =>
    if 50 ≤ quality then
      if enc quality ≤ MAX_OUTPUT_SIZE ∨ quality ≤ 50 then some (enc quality)
      else convertQualityLoop enc fuel (quality - 5)
    else none

/-- WebP branch of convert_and_save_image: start quality 70. -/
def convertWebpSize (enc : Nat → Nat) : Option Nat := convertQualityLoop enc 16 70

/-- AVIF branch of convert_and_save_image: start quality 80. -/
def convertAvifSize (enc : Nat → Nat) : Option Nat := convertQualityLoop enc 16 80

/-- 30KB thumbnail budget (THUMB_MAX_BYTES). -/
def THUMB_MAX_BYTES : Nat := 30 * 1024

/-- The two-axis search loop of _ensure_thumbnail: enc gives the encoded
    size at (max dimension, quality); returns (dimension, quality, written
    size) of the attempt that is written. Quality drops by 8 while above
    40, then the dimension shrinks by 15 percent (floored at 240) and
    quality resets to 76; at the dimension floor the current attempt is
    written regardless of size. The source computes the shrink as
    int(max_side * 0.85); Nat division max_side * 85 / 100 agrees with it
    on every dimension reachable from the start value 640
    (640, 544, 462, 392, 333, 283, 240). -/
def thumbLoop (enc : Nat → Nat → Nat) : Nat → Nat → Nat → Option (Nat × Nat × Nat)
  | 0, _, _ => none
  | fuel + 1, maxSide, quality =>
    if enc maxSide quality ≤ THUMB_MAX_BYTES then some (maxSide, quality, enc maxSide quality)
    else if 40 < quality then thumbLoop enc fuel maxSide (quality - 8)
    else if maxSide ≤ 240 then some (maxSide, quality, enc maxSide quality)
    else thumbLoop enc fuel (max 240 (maxSide * 85 / 100)) 76

/-- _ensure_thumbnail search from 640 px at quality 76, with fuel covering
    the worst case (77 per dimension unit plus the start quality). -/
def ensureThumbnailSearch (enc : Nat → Nat → Nat) : Option (Nat × Nat × Nat) :=
  thumbLoop enc 49357 640 76

/-- One file-system write step performed by a derivative producer. -/
inductive FsWrite
  | direct (path : String)
  | tempWrite (path : String)
  | replaceFile (src : String) (dst : String)
deriving DecidableEq

/-- thumb/id.webp, the final thumbnail path (_thumb_path). -/
def thumbFinalPath (id : String) : String := "photo/thumb/" ++ id ++ ".webp"

/-- The final WebP derivative path written by convert_and_save_image. -/
def webpFinalPath (dir base : String) : String := dir ++ "/" ++ base ++ ".webp"

/-- The final AVIF derivative path written by convert_and_save_image. -/
def avifFinalPath (dir base : String) : String := dir ++ "/" ++ base ++ ".avif"

/-- download/id.jpg, the final download-JPEG path (_download_jpg_path). -/
def downloadFinalPath (id : String) : String := "photo/download/" ++ id ++ ".jpg"

/-- _ensure_thumbnail writes the encoded buffer straight to the final path
    with out_path.write_bytes, in both its success and give-up branches. -/
def ensureThumbnailWrites (id : String) : List FsWrite :=
  [FsWrite.direct (thumbFinalPath id)]

/-- convert_and_save_image writes the WebP buffer straight to the final
    path with webp_path.write_bytes. -/
def convertWebpWrites (dir base : String) : List FsWrite :=
  [FsWrite.direct (webpFinalPath dir base)]

/-- convert_and_save_image writes the AVIF buffer straight to the final
    path with avif_path.write_bytes. -/
def convertAvifWrites (dir base : String) : List FsWrite :=
  [FsWrite.direct (avifFinalPath dir base)]

/-- download_image saves the JPEG to out.with_suffix of ".jpg.tmp" and then
    calls tmp.replace(out). -/
def downloadJpegWrites (id : String) : List FsWrite :=
  [FsWrite.tempWrite (downloadFinalPath id ++ ".tmp"),
   FsWrite.replaceFile (downloadFinalPath id ++ ".tmp") (downloadFinalPath id)]

/-- A trace writes its final path atomically when no write targets the
    final path directly and some rename lands on it. -/
def atomicReplaceWrite (ws : List FsWrite) (final : String) : Bool :=
  (ws.all fun w =>
    match w with
    | FsWrite.direct p => p != final
    | _ => true) &&
  (ws.any fun w =>
    match w with
    | FsWrite.replaceFile _ dst => dst == final
    | _ => false)

/-- A wall-clock or EXIF timestamp as upload_image handles it. -/
structure PyDateTime where
  year : Nat
  month : Nat
  day : Nat
  hour : Nat
  minute : Nat
  second : Nat
deriving DecidableEq

/-- Two-digit zero-padded strftime field. -/
def pad2 (n : Nat) : String := if n < 10 then "0" ++ toString n else toString n

/-- Four-digit zero-padded strftime year field. -/
def pad4 (n : Nat) : String :=
  if n < 10 then "000" ++ toString n
  else if n < 100 then "00" ++ toString n
  else if n < 1000 then "0" ++ toString n
  else toString n

/-- strftime of "%Y%m%d_%H%M%S" as used to build the image id. -/
def tsFormat (dt : PyDateTime) : String :=
  pad4 dt.year ++ pad2 dt.month ++ pad2 dt.day ++ "_" ++
    pad2 dt.hour ++ pad2 dt.minute ++ pad2 dt.second

/-- The first n characters of a string (the [:12] hash truncation). -/
def takeChars (n : Nat) (s : String) : String := String.mk (s.data.take n)

/-- photo_date resolution in upload_image: the EXIF datetime when present,
    else the upload wall-clock time. -/
def resolvePhotoDate (exifDt : Option PyDateTime) (uploadDt : PyDateTime) : PyDateTime :=
  exifDt.getD uploadDt

/-- base_name built in upload_image: the formatted photo date, an
    underscore, and the first 12 hex characters of the md5 hexdigest of the
    raw uploaded bytes (md5hex abstracts the external hashlib.md5). -/
def uploadBaseName (md5hex : List Nat → String) (exifDt : Option PyDateTime)
    (uploadDt : PyDateTime) (fileBytes : List Nat) : String :=
  tsFormat (resolvePhotoDate exifDt uploadDt) ++ "_" ++ takeChars 12 (md5hex fileBytes)

/-- A concrete album used by the witness states. -/
def albumFixture : Album := { name := "A", passwordHash := "H", createdAt := "t" }

/-- A concrete metadata document: one pinned image with a datetime entry,
    assigned to the live album "a". -/
def metaFixture : Meta :=
  { pinned := [("img1", true)],
    datetimeMap := [("img1", "2023-05-10 14:30:00")],
    albums := [("a", albumFixture)],
    imageAlbum := [("img1", "a")] }

/-- A concrete store: img1 stored as .webp and .avif with every cache and
    metadata entry populated. -/
def storeFixture : StoreState :=
  { photoFiles := [("img1", "webp"), ("img1", "avif")],
    thumbFiles := ["img1"],
    downloadFiles := ["img1"],
    descriptions := [("img1", "desc")],
    meta := metaFixture }

/-- An admin session with nothing unlocked. -/
def adminCaller : Caller := { isAdmin := true, unlocked := [] }

/-- An anonymous session with nothing unlocked. -/
def anonCaller : Caller := { isAdmin := false, unlocked := [] }

/-- A metadata document whose image_album entry points at a deleted album. -/
def orphanMeta : Meta :=
  { pinned := [], datetimeMap := [], albums := [], imageAlbum := [("imgX", "ghost")] }

/-- A store holding one private image (album "a") and nothing else. -/
def privStore : StoreState :=
  { photoFiles := [("imgP", "webp")],
    thumbFiles := [],
    downloadFiles := [],
    descriptions := [],
    meta := { pinned := [], datetimeMap := [],
              albums := [("a", albumFixture)], imageAlbum := [("imgP", "a")] } }

/-- Three albums, two sharing the password hash "H". -/
def albumsFixture : List (String × Album) :=
  [("a1", { name := "A", passwordHash := "H", createdAt := "t" }),
   ("a2", { name := "B", passwordHash := "H", createdAt := "t" }),
   ("a3", { name := "C", passwordHash := "X", createdAt := "t" })]

/-- A concrete stand-in for check_password_hash: hash "H" matches password
    "pw" and nothing else. -/
def checkHashFixture : String → String → Bool := fun h p => h == "H" && p == "pw"

/-- An encoder whose output always exceeds the 1MB budget. -/
def encOversized : Nat → Nat := fun _ => 2 * MAX_OUTPUT_SIZE

/-- A concrete hash stand-in for hashlib.md5 hexdigest. -/
def md5Fixture : List Nat → String := fun _ => "0123456789abcdef"

/-- A concrete EXIF capture datetime. -/
def dtFixture : PyDateTime :=
  { year := 2023, month := 5, day := 10, hour := 14, minute := 30, second := 0 }

/-- A concrete upload wall-clock datetime. -/
def uploadDtFixture : PyDateTime :=
  { year := 2024, month := 1, day := 1, hour := 0, minute := 0, second := 0 }

/-- Popping a key makes a subsequent lookup of that key fail. -/
theorem lookupStr_eraseKey {α : Type} (xs : List (String × α)) (k : String) :
    lookupStr (eraseKey xs k) k = none := by
  induction xs with
  | nil => rfl
  | cons kv rest ih =>
    rcases kv with ⟨k1, v⟩
    by_cases h : k1 = k
    · simpa [eraseKey, List.filter_cons, h] using ih
    · simpa [eraseKey, List.filter_cons, h, lookupStr] using ih

/-- Setting a key makes a subsequent lookup of that key return the value. -/
theorem lookupStr_setKey_self {α : Type} (xs : List (String × α)) (k : String) (v : α) :
    lookupStr (setKey xs k v) k = some v := by
  simp [setKey, lookupStr]

/-- Filtering by a predicate after keeping only its complement is empty. -/
theorem filter_not_filter_self {α : Type} (p : α → Bool) (xs : List α) :
    (xs.filter (fun a => !(p a))).filter p = [] := by
  induction xs with
  | nil => rfl
  | cons x rest ih =>
    cases h : p x <;> simp [List.filter_cons, h, ih]

/-- insertAll keeps every element already in the set. -/
theorem mem_insertAll_left (xs : List String) :
    ∀ s a, a ∈ s → a ∈ insertAll s xs := by
  induction xs with
  | nil => intro s a h; simpa [insertAll] using h
  | cons y ys ih =>
    intro s a h
    show a ∈ insertAll (if y ∈ s then s else s ++ [y]) ys
    apply ih
    by_cases hy : y ∈ s
    · simpa [hy] using h
    · simp only [if_neg hy, List.mem_append]
      exact Or.inl h

/-- insertAll adds every inserted element. -/
theorem mem_insertAll_right (xs : List String) :
    ∀ s a, a ∈ xs → a ∈ insertAll s xs := by
  induction xs with
  | nil => intro s a h; simp at h
  | cons y ys ih =>
    intro s a h
    show a ∈ insertAll (if y ∈ s then s else s ++ [y]) ys
    rcases List.mem_cons.mp h with rfl | hm
    · apply mem_insertAll_left
      by_cases hy : a ∈ s
      · simp [hy]
      · simp [hy]
    · exact ih _ a hm

/-- Claim C5: for every caller and image, access is granted if and only if
    the caller is admin, or the resolved album assignment is none, or the
    resolved album id is in the caller's session unlocked set; and an album
    id recorded in image_album but absent from the albums map resolves to
    none before the access decision. -/
theorem can_access_image_iff (meta : Meta) (caller : Caller) (id : String) :
    (canAccessImage caller meta id = true ↔
      (caller.isAdmin = true ∨ getImageAlbumId meta id = none ∨
        ∃ a, getImageAlbumId meta id = some a ∧ a ∈ caller.unlocked)) ∧
    (∀ a, lookupStr meta.imageAlbum id = some a → lookupStr meta.albums a = none →
      getImageAlbumId meta id = none) := by
  constructor
  · unfold canAccessImage canAccessAlbum
    cases hA : caller.isAdmin with
    | true =>
      simp
    | false =>
      cases hR : getImageAlbumId meta id with
      | none => simp
      | some a =>
        simp only [if_neg (by simp [hA] : ¬ caller.isAdmin = true)]
        constructor
        · intro h
          exact Or.inr (Or.inr ⟨a, rfl, by simpa using h⟩)
        · intro h
          rcases h with h | h | ⟨b, hb, hmem⟩
          · simp [hA] at h
          · simp at h
          · rcases Option.some.inj hb with rfl
            simpa using hmem
  · intro a ha hnone
    unfold getImageAlbumId
    rw [ha]
    by_cases he : a = ""
    · simp [he]
    · simp [he, hnone]

/-- Witness for C5 at a concrete metadata document whose image_album entry
    is orphaned: the entry resolves to none and an anonymous caller gets
    access. -/
theorem can_access_image_iff_witness :
    getImageAlbumId orphanMeta "imgX" = none ∧
    canAccessImage anonCaller orphanMeta "imgX" = true := by
  refine ⟨?_, ?_⟩
  · exact (can_access_image_iff orphanMeta anonCaller "imgX").2 "ghost" rfl rfl
  · exact ((can_access_image_iff orphanMeta anonCaller "imgX").1).mpr
      (Or.inr (Or.inl (by decide)))

/-- Counterexample to claim C1 as stated: at a concrete store the delete
    succeeds with 200, yet the image-keyed datetime metadata entry is still
    present afterwards — delete_image pops only the pin flag and the album
    assignment, never the datetime entry. -/
theorem delete_image_keeps_datetime_entry :
    (deleteImage storeFixture adminCaller "img1").1 = 200 ∧
    lookupStr (deleteImage storeFixture adminCaller "img1").2.meta.datetimeMap "img1" =
      some "2023-05-10 14:30:00" := by
  exact ⟨rfl, rfl⟩

/-- Claim C1 (amended): a successful delete removes all sibling files
    sharing the stem, the thumbnail, the download JPEG, the description
    file, the pin flag and the album assignment — but leaves the datetime
    metadata entry in place — and a subsequent lookup of the image id by
    any caller returns the not-found response. -/
theorem delete_image_cleanup (st : StoreState) (caller : Caller) (id : String)
    (hadm : caller.isAdmin = true) (hfiles : findFilesById st id ≠ []) :
    (deleteImage st caller id).1 = 200 ∧
    findFilesById (deleteImage st caller id).2 id = [] ∧
    lookupStr (deleteImage st caller id).2.meta.pinned id = none ∧
    lookupStr (deleteImage st caller id).2.meta.imageAlbum id = none ∧
    lookupStr (deleteImage st caller id).2.descriptions id = none ∧
    id ∉ (deleteImage st caller id).2.thumbFiles ∧
    id ∉ (deleteImage st caller id).2.downloadFiles ∧
    (deleteImage st caller id).2.meta.datetimeMap = st.meta.datetimeMap ∧
    (∀ c : Caller, getImageEndpoint (deleteImage st caller id).2 c id =
      (404, RespBody.imageNotFound)) := by
  have hres : deleteImage st caller id =
      (200,
        { photoFiles := st.photoFiles.filter (fun f => !(f.1 == id)),
          thumbFiles := st.thumbFiles.filter (fun t => !(t == id)),
          downloadFiles := st.downloadFiles.filter (fun t => !(t == id)),
          descriptions := eraseKey st.descriptions id,
          meta := { st.meta with
                    pinned := eraseKey st.meta.pinned id,
                    imageAlbum := eraseKey st.meta.imageAlbum id } }) := by
    simp [deleteImage, hadm, hfiles]
  rw [hres]
  have hempty : (st.photoFiles.filter (fun f => !(f.1 == id))).filter
      (fun f => f.1 == id) = [] := filter_not_filter_self _ _
  refine ⟨rfl, ?_, ?_, ?_, ?_, ?_, ?_, rfl, ?_⟩
  · exact hempty
  · exact lookupStr_eraseKey _ _
  · exact lookupStr_eraseKey _ _
  · exact lookupStr_eraseKey _ _
  · intro hmem
    have := (List.mem_filter.mp hmem).2
    simp at this
  · intro hmem
    have := (List.mem_filter.mp hmem).2
    simp at this
  · intro c
    have haccess : canAccessImage c
        { pinned := eraseKey st.meta.pinned id,
          datetimeMap := st.meta.datetimeMap,
          albums := st.meta.albums,
          imageAlbum := eraseKey st.meta.imageAlbum id } id = true := by
      unfold canAccessImage getImageAlbumId
      simp only [lookupStr_eraseKey]
      unfold canAccessAlbum
      cases c.isAdmin <;> simp
    simp only [getImageEndpoint, haccess, if_true, buildImagePayload, findFilesById]
    simp [hempty]

/-- Witness for C1 (amended) at the concrete store fixture. -/
theorem delete_image_cleanup_witness :
    (deleteImage storeFixture adminCaller "img1").1 = 200 ∧
    getImageEndpoint (deleteImage storeFixture adminCaller "img1").2 anonCaller "img1" =
      (404, RespBody.imageNotFound) := by
  have h := delete_image_cleanup storeFixture adminCaller "img1" rfl (by decide)
  exact ⟨h.1, h.2.2.2.2.2.2.2.2 anonCaller⟩

/-- Claim C6: for a caller lacking access to an image, the single-image
    fetch and thumbnail endpoints return responses identical to those for
    an image id with no stored file at all — both are the 404 not-found
    response, for any thumbnail generator. -/
theorem denied_and_missing_indistinguishable (gen : StoreState → String → Option String)
    (st : StoreState) (caller : Caller) (i j : String)
    (hdeny : canAccessImage caller st.meta i = false)
    (hmiss : findFilesById st j = []) :
    getImageEndpoint st caller i = getImageEndpoint st caller j ∧
    serveThumbnailEndpoint gen st caller i = serveThumbnailEndpoint gen st caller j ∧
    getImageEndpoint st caller i = (404, RespBody.imageNotFound) ∧
    serveThumbnailEndpoint gen st caller i = (404, RespBody.imageNotFound) := by
  have hi : getImageEndpoint st caller i = (404, RespBody.imageNotFound) := by
    simp [getImageEndpoint, hdeny]
  have hti : serveThumbnailEndpoint gen st caller i = (404, RespBody.imageNotFound) := by
    simp [serveThumbnailEndpoint, hdeny]
  have hj : getImageEndpoint st caller j = (404, RespBody.imageNotFound) := by
    cases hacc : canAccessImage caller st.meta j with
    | true => simp [getImageEndpoint, hacc, buildImagePayload, hmiss]
    | false => simp [getImageEndpoint, hacc]
  have htj : serveThumbnailEndpoint gen st caller j = (404, RespBody.imageNotFound) := by
    cases hacc : canAccessImage caller st.meta j with
    | true => simp [serveThumbnailEndpoint, hacc, hmiss]
    | false => simp [serveThumbnailEndpoint, hacc]
  exact ⟨hi.trans hj.symm, hti.trans htj.symm, hi, hti⟩

/-- Witness for C6: an anonymous caller denied the private image imgP gets
    exactly the response produced for the nonexistent id nope, on both
    endpoints. -/
theorem denied_and_missing_indistinguishable_witness :
    getImageEndpoint privStore anonCaller "imgP" = getImageEndpoint privStore anonCaller "nope" ∧
    serveThumbnailEndpoint (fun _ _ => none) privStore anonCaller "imgP" =
      serveThumbnailEndpoint (fun _ _ => none) privStore anonCaller "nope" := by
  have h := denied_and_missing_indistinguishable (fun _ _ => none) privStore anonCaller
    "imgP" "nope" (by decide) (by decide)
  exact ⟨h.1, h.2.1⟩

/-- Counterexample to claim C2 as stated: the filter token "all" is not an
    admin-only full listing. At a concrete store with one image in a live
    album, an admin caller with nothing unlocked requests album=all and
    receives the empty listing instead of all images. -/
theorem get_images_all_not_admin_listing :
    getImagesFiltered adminCaller metaFixture ["img1"] "all" = Except.ok [] ∧
    getImagesFiltered adminCaller metaFixture ["img1"] "all" ≠ Except.ok ["img1"] := by
  refine ⟨rfl, ?_⟩
  intro h
  rw [show getImagesFiltered adminCaller metaFixture ["img1"] "all" = Except.ok []
      from rfl] at h
  simp at h

/-- Claim C2 (amended): the public listing endpoint's album-filter contract
    for every caller and metadata document. Filter "public" returns exactly
    the images whose listing-resolved album assignment is none; filter
    "all" behaves identically to an absent filter (it is not admin-only and
    does not return all images); a specific album token fails closed with
    403 whenever it is not in the caller's session unlocked set (admin
    status grants no bypass: the endpoint never consults the admin flag),
    and otherwise returns exactly that album's images; an absent filter
    returns exactly the public images plus images of unlocked albums. -/
theorem get_images_album_filter_semantics (caller : Caller) (meta : Meta) (ids : List String) :
    (getImagesFiltered caller meta ids "public" =
      Except.ok (ids.filter (fun id => (listResolveAlbum meta id).isNone))) ∧
    (getImagesFiltered caller meta ids "all" = getImagesFiltered caller meta ids "") ∧
    (∀ f : String, f ≠ "" → f ≠ "all" → f ≠ "public" →
      (f ∉ caller.unlocked → getImagesFiltered caller meta ids f = Except.error 403) ∧
      (f ∈ caller.unlocked →
        getImagesFiltered caller meta ids f =
          Except.ok (ids.filter (fun id => decide (listResolveAlbum meta id = some f))))) ∧
    (getImagesFiltered caller meta ids "" =
      Except.ok (ids.filter (fun id =>
        match listResolveAlbum meta id with
        | none => true
        | some a => caller.unlocked.contains a))) ∧
    (∀ adm : Bool, ∀ f : String,
      getImagesFiltered { isAdmin := adm, unlocked := caller.unlocked } meta ids f =
        getImagesFiltered caller meta ids f) := by
  refine ⟨rfl, rfl, ?_, rfl, fun adm f => rfl⟩
  intro f hf1 hf2 hf3
  constructor
  · intro hnmem
    simp only [getImagesFiltered]
    rw [if_pos ⟨hf1, hf2, hf3, hnmem⟩]
  · intro hmem
    have hpred : listingKeep caller meta f =
        fun id => decide (listResolveAlbum meta id = some f) := by
      funext id
      unfold listingKeep
      rw [if_neg hf3, if_pos ⟨hf1, hf2, hf3⟩]
    simp only [getImagesFiltered]
    rw [if_neg (fun h => h.2.2.2 hmem), hpred]

/-- Witness for C2 (amended): even an admin session is refused a specific
    locked album token with 403. -/
theorem get_images_album_filter_semantics_witness :
    getImagesFiltered adminCaller metaFixture ["img1"] "a" = Except.error 403 := by
  exact ((get_images_album_filter_semantics adminCaller metaFixture ["img1"]).2.2.1 "a"
    (by decide) (by decide) (by decide)).1 (by decide)

/-- Counterexample to claim C3 as stated: the thumbnail write trace is a
    single direct write to the final path, not a temp-encode-then-rename,
    so the thumbnail derivative is not atomically replaced. -/
theorem thumbnail_write_not_atomic :
    atomicReplaceWrite (ensureThumbnailWrites "img1") (thumbFinalPath "img1") = false := by
  rfl

/-- Claim C3 (amended): only the on-demand download JPEG is produced by
    encoding to a temporary path and atomically renaming over the final
    path; the WebP, AVIF and thumbnail derivatives are encoded to an
    in-memory buffer and written to their final path with a single direct
    write, for every image id and output directory. -/
theorem derivative_write_atomicity (id dir base : String) :
    atomicReplaceWrite (downloadJpegWrites id) (downloadFinalPath id) = true ∧
    atomicReplaceWrite (ensureThumbnailWrites id) (thumbFinalPath id) = false ∧
    atomicReplaceWrite (convertWebpWrites dir base) (webpFinalPath dir base) = false ∧
    atomicReplaceWrite (convertAvifWrites dir base) (avifFinalPath dir base) = false := by
  refine ⟨?_, ?_, ?_, ?_⟩ <;>
    simp [atomicReplaceWrite, downloadJpegWrites, ensureThumbnailWrites,
      convertWebpWrites, convertAvifWrites, List.all, List.any]

/-- Counterexample to claim C4 as stated: with an encoder whose output is
    2MB at every quality, the WebP loop reaches the quality floor of 50 and
    writes the 2MB file anyway, exceeding the 1,048,576-byte bound. -/
theorem webp_write_exceeds_budget_at_floor :
    convertWebpSize encOversized = some (2 * MAX_OUTPUT_SIZE) ∧
    ¬ (2 * MAX_OUTPUT_SIZE ≤ MAX_OUTPUT_SIZE) := by
  exact ⟨rfl, by decide⟩

/-- Claim C4 (amended): every WebP and AVIF derivative written is at most
    1,048,576 bytes unless every tried quality (from 70 for WebP, 80 for
    AVIF, stepping down by 5 to the floor of 50) exceeds the budget, in
    which case the quality-50 encoding is written as-is; the loop always
    writes exactly one file. -/
theorem convert_size_bound_or_floor (encW encA : Nat → Nat) :
    (∃ s, convertWebpSize encW = some s ∧
      (s ≤ MAX_OUTPUT_SIZE ∨
        (s = encW 50 ∧ MAX_OUTPUT_SIZE < encW 70 ∧ MAX_OUTPUT_SIZE < encW 65 ∧
          MAX_OUTPUT_SIZE < encW 60 ∧ MAX_OUTPUT_SIZE < encW 55 ∧
          MAX_OUTPUT_SIZE < encW 50))) ∧
    (∃ s, convertAvifSize encA = some s ∧
      (s ≤ MAX_OUTPUT_SIZE ∨
        (s = encA 50 ∧ MAX_OUTPUT_SIZE < encA 80 ∧ MAX_OUTPUT_SIZE < encA 75 ∧
          MAX_OUTPUT_SIZE < encA 70 ∧ MAX_OUTPUT_SIZE < encA 65 ∧
          MAX_OUTPUT_SIZE < encA 60 ∧ MAX_OUTPUT_SIZE < encA 55 ∧
          MAX_OUTPUT_SIZE < encA 50))) := by
  constructor
  · have e70 : convertWebpSize encW =
        (if encW 70 ≤ MAX_OUTPUT_SIZE ∨ (70 : Nat) ≤ 50 then some (encW 70)
         else convertQualityLoop encW 15 65) := rfl
    by_cases h70 : encW 70 ≤ MAX_OUTPUT_SIZE
    · exact ⟨encW 70, by rw [e70, if_pos (Or.inl h70)], Or.inl h70⟩
    · rw [e70, if_neg (not_or.mpr ⟨h70, by omega⟩)]
      have e65 : convertQualityLoop encW 15 65 =
          (if encW 65 ≤ MAX_OUTPUT_SIZE ∨ (65 : Nat) ≤ 50 then some (encW 65)
           else convertQualityLoop encW 14 60) := rfl
      by_cases h65 : encW 65 ≤ MAX_OUTPUT_SIZE
      · exact ⟨encW 65, by rw [e65, if_pos (Or.inl h65)], Or.inl h65⟩
      · rw [e65, if_neg (not_or.mpr ⟨h65, by omega⟩)]
        have e60 : convertQualityLoop encW 14 60 =
            (if encW 60 ≤ MAX_OUTPUT_SIZE ∨ (60 : Nat) ≤ 50 then some (encW 60)
             else convertQualityLoop encW 13 55) := rfl
        by_cases h60 : encW 60 ≤ MAX_OUTPUT_SIZE
        · exact ⟨encW 60, by rw [e60, if_pos (Or.inl h60)], Or.inl h60⟩
        · rw [e60, if_neg (not_or.mpr ⟨h60, by omega⟩)]
          have e55 : convertQualityLoop encW 13 55 =
              (if encW 55 ≤ MAX_OUTPUT_SIZE ∨ (55 : Nat) ≤ 50 then some (encW 55)
               else convertQualityLoop encW 12 50) := rfl
          by_cases h55 : encW 55 ≤ MAX_OUTPUT_SIZE
          · exact ⟨encW 55, by rw [e55, if_pos (Or.inl h55)], Or.inl h55⟩
          · rw [e55, if_neg (not_or.mpr ⟨h55, by omega⟩)]
            have e50 : convertQualityLoop encW 12 50 =
                (if encW 50 ≤ MAX_OUTPUT_SIZE ∨ (50 : Nat) ≤ 50 then some (encW 50)
                 else convertQualityLoop encW 11 45) := rfl
            rw [e50, if_pos (Or.inr (by omega))]
            refine ⟨encW 50, rfl, ?_⟩
            by_cases h50 : encW 50 ≤ MAX_OUTPUT_SIZE
            · exact Or.inl h50
            · exact Or.inr ⟨rfl, Nat.not_le.mp h70, Nat.not_le.mp h65,
                Nat.not_le.mp h60, Nat.not_le.mp h55, Nat.not_le.mp h50⟩
  · have e80 : convertAvifSize encA =
        (if encA 80 ≤ MAX_OUTPUT_SIZE ∨ (80 : Nat) ≤ 50 then some (encA 80)
         else convertQualityLoop encA 15 75) := rfl
    by_cases h80 : encA 80 ≤ MAX_OUTPUT_SIZE
    · exact ⟨encA 80, by rw [e80, if_pos (Or.inl h80)], Or.inl h80⟩
    · rw [e80, if_neg (not_or.mpr ⟨h80, by omega⟩)]
      have e75 : convertQualityLoop encA 15 75 =
          (if encA 75 ≤ MAX_OUTPUT_SIZE ∨ (75 : Nat) ≤ 50 then some (encA 75)
           else convertQualityLoop encA 14 70) := rfl
      by_cases h75 : encA 75 ≤ MAX_OUTPUT_SIZE
      · exact ⟨encA 75, by rw [e75, if_pos (Or.inl h75)], Or.inl h75⟩
      · rw [e75, if_neg (not_or.mpr ⟨h75, by omega⟩)]
        have e70 : convertQualityLoop encA 14 70 =
            (if encA 70 ≤ MAX_OUTPUT_SIZE ∨ (70 : Nat) ≤ 50 then some (encA 70)
             else convertQualityLoop encA 13 65) := rfl
        by_cases h70 : encA 70 ≤ MAX_OUTPUT_SIZE
        · exact ⟨encA 70, by rw [e70, if_pos (Or.inl h70)], Or.inl h70⟩
        · rw [e70, if_neg (not_or.mpr ⟨h70, by omega⟩)]
          have e65 : convertQualityLoop encA 13 65 =
              (if encA 65 ≤ MAX_OUTPUT_SIZE ∨ (65 : Nat) ≤ 50 then some (encA 65)
               else convertQualityLoop encA 12 60) := rfl
          by_cases h65 : encA 65 ≤ MAX_OUTPUT_SIZE
          · exact ⟨encA 65, by rw [e65, if_pos (Or.inl h65)], Or.inl h65⟩
          · rw [e65, if_neg (not_or.mpr ⟨h65, by omega⟩)]
            have e60 : convertQualityLoop encA 12 60 =
                (if encA 60 ≤ MAX_OUTPUT_SIZE ∨ (60 : Nat) ≤ 50 then some (encA 60)
                 else convertQualityLoop encA 11 55) := rfl
            by_cases h60 : encA 60 ≤ MAX_OUTPUT_SIZE
            · exact ⟨encA 60, by rw [e60, if_pos (Or.inl h60)], Or.inl h60⟩
            · rw [e60, if_neg (not_or.mpr ⟨h60, by omega⟩)]
              have e55 : convertQualityLoop encA 11 55 =
                  (if encA 55 ≤ MAX_OUTPUT_SIZE ∨ (55 : Nat) ≤ 50 then some (encA 55)
                   else convertQualityLoop encA 10 50) := rfl
              by_cases h55 : encA 55 ≤ MAX_OUTPUT_SIZE
              · exact ⟨encA 55, by rw [e55, if_pos (Or.inl h55)], Or.inl h55⟩
              · rw [e55, if_neg (not_or.mpr ⟨h55, by omega⟩)]
                have e50 : convertQualityLoop encA 10 50 =
                    (if encA 50 ≤ MAX_OUTPUT_SIZE ∨ (50 : Nat) ≤ 50 then some (encA 50)
                     else convertQualityLoop encA 9 45) := rfl
                rw [e50, if_pos (Or.inr (by omega))]
                refine ⟨encA 50, rfl, ?_⟩
                by_cases h50 : encA 50 ≤ MAX_OUTPUT_SIZE
                · exact Or.inl h50
                · exact Or.inr ⟨rfl, Nat.not_le.mp h80, Nat.not_le.mp h75,
                    Nat.not_le.mp h70, Nat.not_le.mp h65, Nat.not_le.mp h60,
                    Nat.not_le.mp h55, Nat.not_le.mp h50⟩

/-- The thumbnail loop produces a result whenever fuel dominates the
    measure 77 per dimension unit plus the current quality. -/
theorem thumbLoop_isSome (enc : Nat → Nat → Nat) :
    ∀ fuel maxSide quality, 77 * maxSide + quality + 1 ≤ fuel →
      (thumbLoop enc fuel maxSide quality).isSome = true := by
  intro fuel
  induction fuel with
  | zero => intro ms q h; omega
  | succ f ih =>
    intro ms q h
    by_cases h1 : enc ms q ≤ THUMB_MAX_BYTES
    · simp [thumbLoop, h1]
    · by_cases h2 : 40 < q
      · have := ih ms (q - 8) (by omega)
        simpa [thumbLoop, h1, h2] using this
      · by_cases h3 : ms ≤ 240
        · simp [thumbLoop, h1, h2, h3]
        · have hd : ms * 85 / 100 < ms := Nat.div_lt_of_lt_mul (by omega)
          have hm2 : max 240 (ms * 85 / 100) ≤ ms - 1 :=
            Nat.max_le.mpr ⟨by omega, by omega⟩
          have := ih (max 240 (ms * 85 / 100)) 76 (by
            have h4 : 77 * max 240 (ms * 85 / 100) ≤ 77 * (ms - 1) :=
              Nat.mul_le_mul_left 77 hm2
            omega)
          simpa [thumbLoop, h1, h2, h3] using this

/-- Whatever the thumbnail loop writes is within the 30KB budget unless
    both the quality floor and the dimension floor were reached. -/
theorem thumbLoop_bound (enc : Nat → Nat → Nat) :
    ∀ fuel maxSide quality d qq s,
      thumbLoop enc fuel maxSide quality = some (d, qq, s) →
      s ≤ THUMB_MAX_BYTES ∨ (qq ≤ 40 ∧ d ≤ 240) := by
  intro fuel
  induction fuel with
  | zero => intro ms q d qq s h; simp [thumbLoop] at h
  | succ f ih =>
    intro ms q d qq s h
    by_cases h1 : enc ms q ≤ THUMB_MAX_BYTES
    · simp [thumbLoop, h1] at h
      exact Or.inl (h.2.2 ▸ h1)
    · by_cases h2 : 40 < q
      · simp only [thumbLoop, if_neg h1, if_pos h2] at h
        exact ih ms (q - 8) d qq s h
      · by_cases h3 : ms ≤ 240
        · simp [thumbLoop, h1, h2, h3] at h
          exact Or.inr ⟨by omega, h.1 ▸ h3⟩
        · simp only [thumbLoop, if_neg h1, if_neg h2, if_neg h3] at h
          exact ih (max 240 (ms * 85 / 100)) 76 d qq s h

/-- Adding fuel never changes a produced thumbnail result. -/
theorem thumbLoop_fuelMono (enc : Nat → Nat → Nat) :
    ∀ fuel maxSide quality r,
      thumbLoop enc fuel maxSide quality = some r →
      thumbLoop enc (fuel + 1) maxSide quality = some r := by
  intro fuel
  induction fuel with
  | zero => intro ms q r h; simp [thumbLoop] at h
  | succ f ih =>
    intro ms q r h
    by_cases h1 : enc ms q ≤ THUMB_MAX_BYTES
    · simpa [thumbLoop, h1] using h
    · by_cases h2 : 40 < q
      · simp only [thumbLoop, if_neg h1, if_pos h2] at h ⊢
        exact ih ms (q - 8) r h
      · by_cases h3 : ms ≤ 240
        · simpa [thumbLoop, h1, h2, h3] using h
        · simp only [thumbLoop, if_neg h1, if_neg h2, if_neg h3] at h ⊢
          exact ih (max 240 (ms * 85 / 100)) 76 r h

/-- Any extra fuel beyond a producing amount yields the same result. -/
theorem thumbLoop_fuel_ge (enc : Nat → Nat → Nat) :
    ∀ extra fuel maxSide quality r,
      thumbLoop enc fuel maxSide quality = some r →
      thumbLoop enc (fuel + extra) maxSide quality = some r := by
  intro extra
  induction extra with
  | zero => intro fuel ms q r h; exact h
  | succ e ih =>
    intro fuel ms q r h
    have := ih fuel ms q r h
    have h2 := thumbLoop_fuelMono enc (fuel + e) ms q r this
    exact h2

/-- Claim C7: for every encoder the thumbnail search from 640 px and
    quality 76 terminates with a bounded amount of fuel — the result is
    stable under any additional fuel — and the written size is within the
    30,720-byte budget unless both the quality floor (at most 40) and the
    dimension floor (at most 240 px) were reached, in which case the
    oversized best-effort attempt is written without error. -/
theorem thumbnail_search_terminates_bounded (enc : Nat → Nat → Nat) :
    ∃ d q s,
      ensureThumbnailSearch enc = some (d, q, s) ∧
      (∀ extra : Nat, thumbLoop enc (49357 + extra) 640 76 = some (d, q, s)) ∧
      (s ≤ THUMB_MAX_BYTES ∨ (q ≤ 40 ∧ d ≤ 240)) := by
  have hs : (thumbLoop enc 49357 640 76).isSome = true :=
    thumbLoop_isSome enc 49357 640 76 (by norm_num)
  obtain ⟨r, hr⟩ := Option.isSome_iff_exists.mp hs
  obtain ⟨d, q, s⟩ := r
  refine ⟨d, q, s, hr, ?_, thumbLoop_bound enc 49357 640 76 d q s hr⟩
  intro extra
  exact thumbLoop_fuel_ge enc extra 49357 640 76 (d, q, s) hr

/-- Claim C8: for every password that is non-empty after stripping, the
    unlock operation adds to the session unlocked set every album whose
    stored password hash is present and matches (so one shared password
    unlocks all matching albums in one call, and the previous unlocked set
    is retained), and when no album matches it returns the invalid-password
    error with status 401 and leaves the unlocked set unchanged. -/
theorem unlock_album_semantics (checkHash : String → String → Bool)
    (albums : List (String × Album)) (unlocked0 : List String) (password : String)
    (hp : pyStrip password ≠ "") :
    ((∀ kv ∈ albums, kv.2.passwordHash = "" ∨
        checkHash kv.2.passwordHash (pyStrip password) = false) →
      unlockAlbum checkHash albums unlocked0 password =
        (401, UnlockOutcome.invalidPassword, unlocked0)) ∧
    (∀ aid alb, (aid, alb) ∈ albums → alb.passwordHash ≠ "" →
      checkHash alb.passwordHash (pyStrip password) = true →
      (unlockAlbum checkHash albums unlocked0 password).1 = 200 ∧
      aid ∈ (unlockAlbum checkHash albums unlocked0 password).2.2) ∧
    (∀ x ∈ unlocked0, x ∈ (unlockAlbum checkHash albums unlocked0 password).2.2) := by
  have e : unlockAlbum checkHash albums unlocked0 password =
      (if ((albums.filter (fun kv => kv.2.passwordHash != "" &&
            checkHash kv.2.passwordHash (pyStrip password))).map (fun kv => kv.1)) = [] then
        (401, UnlockOutcome.invalidPassword, unlocked0)
      else (200,
        UnlockOutcome.okUnlocked ((albums.filter (fun kv => kv.2.passwordHash != "" &&
          checkHash kv.2.passwordHash (pyStrip password))).map (fun kv => kv.1)),
        insertAll unlocked0 ((albums.filter (fun kv => kv.2.passwordHash != "" &&
          checkHash kv.2.passwordHash (pyStrip password))).map (fun kv => kv.1)))) := by
    unfold unlockAlbum
    rw [if_neg hp]
  refine ⟨?_, ?_, ?_⟩
  · intro hall
    rw [e, if_pos ?_]
    rw [List.map_eq_nil_iff, List.filter_eq_nil_iff]
    intro kv hkv
    rcases hall kv hkv with hh | hc
    · simp [hh]
    · simp [hc]
  · intro aid alb hmem hhash hcheck
    have hmatch : aid ∈ (albums.filter (fun kv => kv.2.passwordHash != "" &&
        checkHash kv.2.passwordHash (pyStrip password))).map (fun kv => kv.1) := by
      refine List.mem_map.mpr ⟨(aid, alb), ?_, rfl⟩
      refine List.mem_filter.mpr ⟨hmem, ?_⟩
      simp [hhash, hcheck]
    have hne : ((albums.filter (fun kv => kv.2.passwordHash != "" &&
        checkHash kv.2.passwordHash (pyStrip password))).map (fun kv => kv.1)) ≠ [] :=
      List.ne_nil_of_mem hmatch
    rw [e, if_neg hne]
    exact ⟨rfl, mem_insertAll_right _ _ _ hmatch⟩
  · intro x hx
    rw [e]
    by_cases hm : ((albums.filter (fun kv => kv.2.passwordHash != "" &&
        checkHash kv.2.passwordHash (pyStrip password))).map (fun kv => kv.1)) = []
    · rw [if_pos hm]; exact hx
    · rw [if_neg hm]; exact mem_insertAll_left _ _ _ hx

/-- Witness for C8: the password pw matches the hashes of albums a1 and a2
    but not a3; one unlock call unlocks both and keeps the prior unlock. -/
theorem unlock_album_semantics_witness :
    "a1" ∈ (unlockAlbum checkHashFixture albumsFixture ["z"] "pw").2.2 ∧
    "a2" ∈ (unlockAlbum checkHashFixture albumsFixture ["z"] "pw").2.2 ∧
    "z" ∈ (unlockAlbum checkHashFixture albumsFixture ["z"] "pw").2.2 ∧
    (unlockAlbum checkHashFixture albumsFixture ["z"] "pw").1 = 200 := by
  have h := unlock_album_semantics checkHashFixture albumsFixture ["z"] "pw" (by decide)
  have h1 := h.2.1 "a1" { name := "A", passwordHash := "H", createdAt := "t" }
    (by decide) (by decide) (by decide)
  have h2 := h.2.1 "a2" { name := "B", passwordHash := "H", createdAt := "t" }
    (by decide) (by decide) (by decide)
  exact ⟨h1.2, h2.2, h.2.2 "z" (by decide), h1.1⟩

/-- Claim C9: the image id assigned at upload is a deterministic function
    of the uploaded bytes and the resolved capture datetime — the timestamp
    formatted as YYYYMMDD_HHMMSS followed by a 12-character prefix of the
    content hash of the raw bytes — so byte-identical uploads with the same
    resolved capture time get the same id. -/
theorem image_id_deterministic (md5hex : List Nat → String)
    (e1 e2 : Option PyDateTime) (u1 u2 : PyDateTime) (b1 b2 : List Nat)
    (hdt : resolvePhotoDate e1 u1 = resolvePhotoDate e2 u2) (hb : b1 = b2) :
    uploadBaseName md5hex e1 u1 b1 = uploadBaseName md5hex e2 u2 b2 ∧
    uploadBaseName md5hex e1 u1 b1 =
      tsFormat (resolvePhotoDate e1 u1) ++ "_" ++ takeChars 12 (md5hex b1) := by
  constructor
  · unfold uploadBaseName
    rw [hdt, hb]
  · rfl

/-- Witness for C9: a second upload of the same bytes whose capture time
    resolves identically (EXIF on one, wall clock on the other) yields the
    same image id, with the documented shape. -/
theorem image_id_deterministic_witness :
    uploadBaseName md5Fixture (some dtFixture) uploadDtFixture [1, 2] =
      uploadBaseName md5Fixture none dtFixture [1, 2] ∧
    uploadBaseName md5Fixture (some dtFixture) uploadDtFixture [1, 2] =
      "20230510_143000_0123456789ab" := by
  have h := image_id_deterministic md5Fixture (some dtFixture) none
    uploadDtFixture dtFixture [1, 2] [1, 2] rfl rfl
  refine ⟨h.1, ?_⟩
  rw [h.2]
  rfl

/-- Claim C10: for an existing album and an admin caller whose request has
    a valid (absent or non-blank) name field, a password field that is
    empty or whitespace-only leaves the stored password hash unchanged
    while applying the name change and returning 200; and the stored hash
    changes only when a password non-empty after stripping was supplied. -/
theorem album_update_blank_password_frame (genHash : String → String) (caller : Caller)
    (albums : List (String × Album)) (albumId : String) (body : AlbumUpdateBody) (a0 : Album)
    (hadm : caller.isAdmin = true)
    (ha : lookupStr albums albumId = some a0)
    (hname : body.name = none ∨ ∃ n, body.name = some n ∧ pyStrip n ≠ "") :
    (∀ p, body.password = some p → pyStrip p = "" →
      (adminAlbumUpdatePut genHash caller albums albumId body).1 = 200 ∧
      lookupStr (adminAlbumUpdatePut genHash caller albums albumId body).2 albumId =
        some { name := (match body.name with | none => a0.name | some n => pyStrip n),
               passwordHash := a0.passwordHash,
               createdAt := a0.createdAt }) ∧
    ((lookupStr (adminAlbumUpdatePut genHash caller albums albumId body).2 albumId).map
        Album.passwordHash ≠ some a0.passwordHash →
      ∃ p, body.password = some p ∧ pyStrip p ≠ "") := by
  rcases hname with hn | ⟨n, hn, hne⟩
  · have hres : adminAlbumUpdatePut genHash caller albums albumId body =
        (200, setKey albums albumId (applyPasswordUpdate genHash a0 body.password)) := by
      simp [adminAlbumUpdatePut, hadm, ha, hn]
    constructor
    · intro p hp hpe
      have happ : applyPasswordUpdate genHash a0 body.password = a0 := by
        rw [hp]; simp [applyPasswordUpdate, hpe]
      rw [hres, happ]
      refine ⟨rfl, ?_⟩
      rw [lookupStr_setKey_self, hn]
    · intro hdiff
      cases hpw : body.password with
      | none =>
        exfalso
        apply hdiff
        rw [hres, hpw]
        rw [show applyPasswordUpdate genHash a0 none = a0 from rfl, lookupStr_setKey_self]
        rfl
      | some p =>
        by_cases hq : pyStrip p = ""
        · exfalso
          apply hdiff
          rw [hres, hpw]
          rw [show applyPasswordUpdate genHash a0 (some p) = a0 by
            simp [applyPasswordUpdate, hq]]
          rw [lookupStr_setKey_self]
          rfl
        · exact ⟨p, rfl, hq⟩
  · have hres : adminAlbumUpdatePut genHash caller albums albumId body =
        (200, setKey albums albumId
          (applyPasswordUpdate genHash { a0 with name := pyStrip n } body.password)) := by
      simp [adminAlbumUpdatePut, hadm, ha, hn, hne]
    constructor
    · intro p hp hpe
      have happ : applyPasswordUpdate genHash { a0 with name := pyStrip n } body.password =
          { a0 with name := pyStrip n } := by
        rw [hp]; simp [applyPasswordUpdate, hpe]
      rw [hres, happ]
      refine ⟨rfl, ?_⟩
      rw [lookupStr_setKey_self, hn]
    · intro hdiff
      cases hpw : body.password with
      | none =>
        exfalso
        apply hdiff
        rw [hres, hpw]
        rw [show applyPasswordUpdate genHash { a0 with name := pyStrip n } none =
          { a0 with name := pyStrip n } from rfl, lookupStr_setKey_self]
        rfl
      | some p =>
        by_cases hq : pyStrip p = ""
        · exfalso
          apply hdiff
          rw [hres, hpw]
          rw [show applyPasswordUpdate genHash { a0 with name := pyStrip n } (some p) =
            { a0 with name := pyStrip n } by simp [applyPasswordUpdate, hq]]
          rw [lookupStr_setKey_self]
          rfl
        · exact ⟨p, rfl, hq⟩

/-- Witness for C10: updating album "a" as admin with a new name and a
    whitespace-only password returns 200, applies the name, and keeps the
    stored hash "H". -/
theorem album_update_blank_password_frame_witness :
    (adminAlbumUpdatePut (fun s => "G" ++ s) adminCaller [("a", albumFixture)] "a"
      { name := some " New ", password := some "   " }).1 = 200 ∧
    lookupStr (adminAlbumUpdatePut (fun s => "G" ++ s) adminCaller [("a", albumFixture)] "a"
      { name := some " New ", password := some "   " }).2 "a" =
      some { name := "New", passwordHash := "H", createdAt := "t" } := by
  have h := album_update_blank_password_frame (fun s => "G" ++ s) adminCaller
    [("a", albumFixture)] "a" { name := some " New ", password := some "   " } albumFixture
    rfl rfl (Or.inr ⟨" New ", rfl, by decide⟩)
  have h2 := h.1 "   " rfl (by decide)
  refine ⟨h2.1, ?_⟩
  rw [h2.2]
  rfl
